import Mathlib

/-!
Verification of the Education classroom-submission web application
(`src/app.py`), a Flask app gluing Google Classroom and Google Drive.

The code is embedded shallowly: every external interaction (token file on
disk, OAuth refresh/consent, Drive upload, Classroom submission calls) is
driven by an explicit environment record supplying the outcome of each
remote call, and every side effect the handler performs is recorded in an
`Effect` trace, in program order.  Handlers become pure functions from the
environment to a result (`Except` for the raised-exception paths of the
Python code) paired with the trace.
-/

namespace ClassroomApp

/-- Model of a `google.oauth2.credentials.Credentials` object as the app
observes it: whether an access token is set, whether it is expired, and
whether a refresh token is set.  `valid` below mirrors the library property
`token is not None and not expired`. -/
structure Creds where
  hasToken : Bool
  expired : Bool
  hasRefreshToken : Bool
deriving DecidableEq, Repr

/-- The `creds.valid` property used at `app.py:71` and `app.py:103`. -/
def Creds.valid (c : Creds) : Bool := c.hasToken && !c.expired

/-- Possible contents of `token.json` when the file exists: undecodable
(raises `JSONDecodeError`/`UnicodeDecodeError` on `json.load`), decodable
but lacking the `refresh_token` key, or decodable with a `refresh_token`
key, yielding a `Creds` via `Credentials.from_authorized_user_info`. -/
inductive TokenFile
  | malformed
  | noRefreshKey
  | withRefresh (c : Creds)
deriving DecidableEq, Repr

/-- A Classroom student submission as the app reads it: its id and state. -/
structure Submission where
  id : String
  state : String
deriving DecidableEq, Repr

/-- A Drive-file attachment as built at `app.py:229`: remote file id and
display title. -/
structure Attachment where
  fileId : String
  title : String
deriving DecidableEq, Repr

/-- Side effects performed by the handlers, recorded in program order. -/
inductive Effect
  | unlinkToken
  | saveToken (c : Creds)
  | refreshCall
  | consentFlow
  | saveUpload (path : String)
  | driveUpload (path : String)
  | listSubs (courseId courseWorkId : String)
  | createSub (courseId courseWorkId state : String)
  | patchSub (courseId courseWorkId subId updateMask : String) (atts : List Attachment)
  | turnIn (courseId subId : String)
  | removeFile (path : String)
deriving DecidableEq, Repr

/-- The token-loading step of `authenticate` (`app.py:46-69`): a missing
file yields no credential and no side effect; an existing file that is
undecodable or lacks a refresh token is deleted and yields no credential;
otherwise the parsed credential is returned. -/
def loadToken (tok : Option TokenFile) : Option Creds × List Effect :=
  match tok with
  | none => (none, [])
  | some TokenFile.malformed => (none, [Effect.unlinkToken])
  | some TokenFile.noRefreshKey => (none, [Effect.unlinkToken])
  | some (TokenFile.withRefresh c) => (some c, [])

/-- Outcomes of the two remote authentication steps: `creds.refresh(...)`
(`app.py:75`) and the installed-app consent flow (`app.py:79-95`).  An
`error` models the call raising, an `ok` the credential it produces. -/
structure AuthEnv where
  refreshResult : Except String Creds
  consentResult : Except String Creds
deriving Repr

/-- The `authenticate` routine (`app.py:42-110`): load the token file;
when the credential is absent or not valid, refresh it when it is expired
and carries a refresh token, otherwise run the consent flow; save the
resulting credential back to the token file when it is valid.  A raise
from refresh or consent propagates (`Except.error`). -/
def authenticate (tok : Option TokenFile) (env : AuthEnv) :
    Except String Creds × List Effect :=
  let load := loadToken tok
  let tr0 := load.snd
  match load.fst with
  | some c =>
    if c.valid then
      (Except.ok c, tr0)
    else if c.expired && c.hasRefreshToken then
      match env.refreshResult with
      | Except.error e => (Except.error e, tr0 ++ [Effect.refreshCall])
      | Except.ok c' =>
        if c'.valid then
          (Except.ok c', tr0 ++ [Effect.refreshCall, Effect.saveToken c'])
        else
          (Except.ok c', tr0 ++ [Effect.refreshCall])
    else
      match env.consentResult with
      | Except.error e => (Except.error e, tr0 ++ [Effect.consentFlow])
      | Except.ok c' =>
        if c'.valid then
          (Except.ok c', tr0 ++ [Effect.consentFlow, Effect.saveToken c'])
        else
          (Except.ok c', tr0 ++ [Effect.consentFlow])
  | none =>
    match env.consentResult with
    | Except.error e => (Except.error e, tr0 ++ [Effect.consentFlow])
    | Except.ok c' =>
      if c'.valid then
        (Except.ok c', tr0 ++ [Effect.consentFlow, Effect.saveToken c'])
      else
        (Except.ok c', tr0 ++ [Effect.consentFlow])

/-- Outcomes of the four Classroom remote calls made by `submit_assignment`
(`app.py:214-237`): listing the student submissions, creating a draft
submission, patching attachments, and turning in. -/
structure ClassEnv where
  listResult : Except String (List Submission)
  createResult : Except String Submission
  patchResult : Except String Unit
  turnInResult : Except String Unit
deriving Repr

/-- The patch-then-turn-in tail of `submit_assignment` (`app.py:229-237`):
build one Drive-file attachment from the remote file id and the original
filename, patch the submission with update mask `addAttachments`, then
call `turnIn` (the code passes the coursework id as the `courseId`
argument of `turnIn`, which the trace records faithfully). -/
def attachAndTurnIn (env : ClassEnv) (course_id coursework_id file_id filename subId : String) :
    Except String Unit × List Effect :=
  let attachment : Attachment := { fileId := file_id, title := filename }
  let patchEff := Effect.patchSub course_id coursework_id subId "addAttachments" [attachment]
  match env.patchResult with
  | Except.error e => (Except.error e, [patchEff])
  | Except.ok _ =>
    match env.turnInResult with
    | Except.error e => (Except.error e, [patchEff, Effect.turnIn coursework_id subId])
    | Except.ok _ => (Except.ok (), [patchEff, Effect.turnIn coursework_id subId])

/-- The `submit_assignment` helper (`app.py:214-237`): list the student
submissions; when one exists and is already `TURNED_IN`, raise
`Assignment already turned in.`; when none exists, create a `DRAFT`
submission; then attach the uploaded file and turn the submission in. -/
def submit_assignment (env : ClassEnv) (course_id coursework_id file_id filename : String) :
    Except String Unit × List Effect :=
  match env.listResult with
  | Except.error e => (Except.error e, [Effect.listSubs course_id coursework_id])
  | Except.ok subs =>
    let tr0 := [Effect.listSubs course_id coursework_id]
    match subs with
    | sub :: _ =>
      if sub.state = "TURNED_IN" then
        (Except.error "Assignment already turned in.", tr0)
      else
        let tail := attachAndTurnIn env course_id coursework_id file_id filename sub.id
        (tail.fst, tr0 ++ tail.snd)
    | [] =>
      match env.createResult with
      | Except.error e =>
        (Except.error e, tr0 ++ [Effect.createSub course_id coursework_id "DRAFT"])
      | Except.ok sub =>
        let tail := attachAndTurnIn env course_id coursework_id file_id filename sub.id
        (tail.fst, tr0 ++ [Effect.createSub course_id coursework_id "DRAFT"] ++ tail.snd)

/-- Environment of one `POST /submit` request: the token file and auth
outcomes, the Drive upload outcome (`app.py:207-212`, producing the remote
file id), and the Classroom call outcomes. -/
structure SubmitEnv where
  tok : Option TokenFile
  authEnv : AuthEnv
  uploadResult : Except String String
  classEnv : ClassEnv
deriving Repr

/-- The scratch path `os.path.join('uploads', file.filename)` of
`app.py:193`. -/
def uploadsPath (filename : String) : String := "uploads/" ++ filename

/-- The `POST /submit` handler (`app.py:185-205`): authenticate, save the
uploaded file to the scratch path, then inside the `try` block upload it
to Drive, run `submit_assignment`, remove the scratch file and return the
success message; any exception from the `try` block is returned as an
error response, without removing the scratch file. -/
def submitHandler (env : SubmitEnv) (course_id assignment_id filename : String) :
    Except String String × List Effect :=
  match authenticate env.tok env.authEnv with
  | (Except.error e, tr) => (Except.error e, tr)
  | (Except.ok _, tr) =>
    let path := uploadsPath filename
    let tr1 := tr ++ [Effect.saveUpload path]
    match env.uploadResult with
    | Except.error e => (Except.error e, tr1 ++ [Effect.driveUpload path])
    | Except.ok file_id =>
      let sa := submit_assignment env.classEnv course_id assignment_id file_id filename
      match sa.fst with
      | Except.error e => (Except.error e, tr1 ++ [Effect.driveUpload path] ++ sa.snd)
      | Except.ok _ =>
        (Except.ok ("Assignment " ++ assignment_id ++ " submitted successfully."),
         tr1 ++ [Effect.driveUpload path] ++ sa.snd ++ [Effect.removeFile path])

/-- Lookup in a JSON-object modelled as an association list, mirroring
Python `dict.get(key, default-absent)`. -/
def dictGet (d : List (String × Nat)) (k : String) : Option Nat :=
  match d with
  | [] => none
  | (k', v) :: rest => if k' = k then some v else dictGet rest k

/-- Rendering of one due-date component in the f-string of `app.py:181`:
the field value when present, the literal `N/A` otherwise. -/
def formatComponent (o : Option Nat) : String :=
  match o with
  | some n => toString n
  | none => "N/A"

/-- The due-string computation of `app.py:180-181`: take the `dueDate`
object, defaulting to the empty object; when it is truthy (non-empty)
format `year-month-day` with `N/A` for each missing key, otherwise produce
the literal `No due date`. -/
def formatDue (dueDate : Option (List (String × Nat))) : String :=
  let d := dueDate.getD []
  if d.isEmpty then "No due date"
  else
    formatComponent (dictGet d "year") ++ "-" ++ formatComponent (dictGet d "month")
      ++ "-" ++ formatComponent (dictGet d "day")

/-- A coursework item as read by the assignments handler: id, title and
the optional `dueDate` object. -/
structure Work where
  id : String
  title : String
  dueDate : Option (List (String × Nat))
deriving DecidableEq, Repr

/-- One entry of the `GET /assignments/{course_id}` JSON response
(`app.py:182`). -/
structure AssignmentItem where
  id : String
  title : String
  due : String
  status : String
deriving DecidableEq, Repr

/-- Environment of one `GET /assignments/{course_id}` request: the
coursework list returned by the Classroom listing call, and for each
coursework id the `studentSubmissions` list returned by the per-item
submission query (an absent key reads as the empty list). -/
structure AsgEnv where
  coursework : List Work
  subsFor : String → List Submission

/-- The response entry built for one coursework item (`app.py:175-182`):
status is the first returned submission's state, defaulting to
`NOT_SUBMITTED` when the submission query returns none, and the due string
is computed by `formatDue`. -/
def assignmentItem (env : AsgEnv) (w : Work) : AssignmentItem :=
  let subs := env.subsFor w.id
  let status :=
    match subs with
    | [] => "NOT_SUBMITTED"
    | s :: _ => s.state
  { id := w.id, title := w.title, due := formatDue w.dueDate, status := status }

/-- The `GET /assignments/{course_id}` handler body (`app.py:167-183`):
one response entry per coursework item, in order. -/
def assignmentsHandler (env : AsgEnv) : List AssignmentItem :=
  env.coursework.map (assignmentItem env)

/-- Environment of one `GET /auth` request: whether `credentials.json`
exists, and the outcome of the installed-app consent flow run by the
handler. -/
structure AuthRouteEnv where
  credentialsExists : Bool
  flowResult : Except String Creds
deriving Repr

/-- The `GET /auth` handler (`app.py:123-155`): error when
`credentials.json` is missing; otherwise delete `token.json` when it
exists, then run the consent flow inside a `try`: on success write the
credential to `token.json` and redirect, on failure return an error
response.  The function returns the response, the final token-file state,
and the effect trace. -/
def authHandler (store : Option TokenFile) (env : AuthRouteEnv) :
    Except String String × Option TokenFile × List Effect :=
  if !env.credentialsExists then
    (Except.error "credentials.json not found", store, [])
  else
    let cleared :=
      match store with
      | some _ => ((none : Option TokenFile), [Effect.unlinkToken])
      | none => (none, [])
    match env.flowResult with
    | Except.error e =>
      (Except.error ("Authentication failed: " ++ e), cleared.fst,
       cleared.snd ++ [Effect.consentFlow])
    | Except.ok c =>
      (Except.ok "redirect:courses",
       some (if c.hasRefreshToken then TokenFile.withRefresh c else TokenFile.noRefreshKey),
       cleared.snd ++ [Effect.consentFlow, Effect.saveToken c])

/-- Recognizer for attachment-patch effects. -/
def isPatch : Effect → Bool
  | Effect.patchSub _ _ _ _ _ => true
  | _ => false

/-- Recognizer for turn-in effects. -/
def isTurnIn : Effect → Bool
  | Effect.turnIn _ _ => true
  | _ => false

/-- Recognizer for submission-creation effects. -/
def isCreate : Effect → Bool
  | Effect.createSub _ _ _ => true
  | _ => false

/-- Recognizer for scratch-file removal effects. -/
def isRemove : Effect → Bool
  | Effect.removeFile _ => true
  | _ => false

/-- A valid, unexpired credential with a refresh token, used as a concrete
input. -/
def freshCred : Creds := { hasToken := true, expired := false, hasRefreshToken := true }

/-- An expired credential with a refresh token, used as a concrete input. -/
def expiredCred : Creds := { hasToken := true, expired := true, hasRefreshToken := true }

/-- Auth environment whose remote steps would both raise; reaching either
step from a concrete input would fail the request. -/
def goodAuthEnv : AuthEnv := { refreshResult := Except.error "r", consentResult := Except.error "c" }

/-- Token-file input holding an expired credential. -/
def expiredTok : Option TokenFile := some (TokenFile.withRefresh expiredCred)

/-- Auth environment where the refresh step raises. -/
def refreshFailEnv : AuthEnv := { refreshResult := Except.error "boom", consentResult := Except.error "consent" }

/-- Route environment for `GET /auth` where the consent flow raises. -/
def flowFailEnv : AuthRouteEnv := { credentialsExists := true, flowResult := Except.error "denied" }

/-- A draft submission returned by the create call, used as a concrete
input. -/
def draftSub : Submission := { id := "s1", state := "DRAFT" }

/-- Classroom environment where every remote call succeeds and no
submission exists yet. -/
def allOkClass : ClassEnv := { listResult := Except.ok [], createResult := Except.ok draftSub, patchResult := Except.ok (), turnInResult := Except.ok () }

/-- Submit environment where every step succeeds. -/
def allOkEnv : SubmitEnv := { tok := some (TokenFile.withRefresh freshCred), authEnv := goodAuthEnv, uploadResult := Except.ok "fid123", classEnv := allOkClass }

/-- An already-turned-in submission, used as a concrete input. -/
def turnedInSub : Submission := { id := "s2", state := "TURNED_IN" }

/-- Classroom environment whose submission listing returns an
already-turned-in submission. -/
def turnedInClass : ClassEnv := { listResult := Except.ok [turnedInSub], createResult := Except.ok draftSub, patchResult := Except.ok (), turnInResult := Except.ok () }

/-- Submit environment where the existing submission is already turned
in. -/
def turnedInEnv : SubmitEnv := { tok := some (TokenFile.withRefresh freshCred), authEnv := goodAuthEnv, uploadResult := Except.ok "fid123", classEnv := turnedInClass }

/-- Submit environment where the Drive upload raises. -/
def uploadFailEnv : SubmitEnv := { tok := some (TokenFile.withRefresh freshCred), authEnv := goodAuthEnv, uploadResult := Except.error "upload failed", classEnv := allOkClass }

/-- A coursework item whose `dueDate` object is present but empty. -/
def emptyDueWork : Work := { id := "w1", title := "HW 1", dueDate := some [] }

/-- Assignments environment holding only `emptyDueWork`. -/
def emptyDueEnv : AsgEnv := { coursework := [emptyDueWork], subsFor := fun _ => [] }

/-- A coursework item whose `dueDate` has a year and a month but no day. -/
def partialDueWork : Work := { id := "w2", title := "HW 2", dueDate := some [("year", 2024), ("month", 5)] }

/-- Assignments environment holding only `partialDueWork`. -/
def partialDueEnv : AsgEnv := { coursework := [partialDueWork], subsFor := fun _ => [] }

/-- A coursework item with no due date and no submissions. -/
def noSubWork : Work := { id := "w3", title := "HW 3", dueDate := none }

/-- Assignments environment holding only `noSubWork`, with the submission
query returning none. -/
def noSubEnv : AsgEnv := { coursework := [noSubWork], subsFor := fun _ => [] }

/-- Every effect in the `authenticate` trace is one of the four
authentication effects. -/
lemma authenticate_trace_mem (tok : Option TokenFile) (env : AuthEnv) (e : Effect)
    (he : e ∈ (authenticate tok env).snd) :
    e = Effect.unlinkToken ∨ e = Effect.refreshCall ∨ e = Effect.consentFlow ∨
      ∃ c, e = Effect.saveToken c := by
  rcases tok with _ | (_ | _ | c) <;>
    rcases hr : env.refreshResult with er | cr <;>
    rcases hc : env.consentResult with ec | cc <;>
    simp only [authenticate, loadToken, hr, hc] at he <;>
    repeat' split at he
  all_goals aesop

/-- The `authenticate` trace contains no Classroom or file-system effects:
filtering it by any of the submission-related recognizers gives nothing. -/
lemma authenticate_filter_nil (tok : Option TokenFile) (env : AuthEnv) :
    (authenticate tok env).snd.filter isPatch = [] ∧
    (authenticate tok env).snd.filter isTurnIn = [] ∧
    (authenticate tok env).snd.filter isCreate = [] ∧
    (authenticate tok env).snd.filter isRemove = [] := by
  refine ⟨?_, ?_, ?_, ?_⟩ <;>
    refine List.filter_eq_nil_iff.mpr (fun a ha => ?_) <;>
    rcases authenticate_trace_mem tok env a ha with h | h | h | ⟨c, h⟩ <;>
    simp [h, isPatch, isTurnIn, isCreate, isRemove]


/-- The `submit_assignment` trace never contains a scratch-file removal
effect. -/
lemma submit_assignment_no_remove (env : ClassEnv) (c a f n : String) :
    (submit_assignment env c a f n).snd.filter isRemove = [] := by
  rcases hl : env.listResult with el | subs
  · simp [submit_assignment, hl, isRemove]
  · rcases subs with _ | ⟨sub, rest⟩
    · rcases hcr : env.createResult with ec | cs
      · simp [submit_assignment, hl, hcr, isRemove]
      · rcases hp : env.patchResult with ep | u
        · simp [submit_assignment, attachAndTurnIn, hl, hcr, hp, isRemove]
        · rcases ht : env.turnInResult with et | v <;>
            simp [submit_assignment, attachAndTurnIn, hl, hcr, hp, ht, isRemove]
    · by_cases hs : sub.state = "TURNED_IN"
      · simp [submit_assignment, hl, hs, isRemove]
      · rcases hp : env.patchResult with ep | u
        · simp [submit_assignment, attachAndTurnIn, hl, hs, hp, isRemove]
        · rcases ht : env.turnInResult with et | v <;>
            simp [submit_assignment, attachAndTurnIn, hl, hs, hp, ht, isRemove]

/-- When `submit_assignment` succeeds, its trace contains exactly one
attachment patch — with update mask `addAttachments` and exactly the one
Drive-file attachment built from the remote file id and the original
filename — and exactly one turn-in call on the same submission id. -/
lemma submit_assignment_ok_filters (env : ClassEnv) (c a f n : String)
    (hok : (submit_assignment env c a f n).fst = Except.ok ()) :
    ∃ subId,
      (submit_assignment env c a f n).snd.filter isPatch =
        [Effect.patchSub c a subId "addAttachments" [{ fileId := f, title := n }]] ∧
      (submit_assignment env c a f n).snd.filter isTurnIn = [Effect.turnIn a subId] := by
  rcases hl : env.listResult with el | subs
  · simp [submit_assignment, hl] at hok
  · rcases subs with _ | ⟨sub, rest⟩
    · rcases hcr : env.createResult with ec | cs
      · simp [submit_assignment, hl, hcr] at hok
      · rcases hp : env.patchResult with ep | u
        · simp [submit_assignment, attachAndTurnIn, hl, hcr, hp] at hok
        · rcases ht : env.turnInResult with et | v
          · simp [submit_assignment, attachAndTurnIn, hl, hcr, hp, ht] at hok
          · exact ⟨cs.id, by
              simp [submit_assignment, attachAndTurnIn, hl, hcr, hp, ht,
                isPatch, isTurnIn, List.filter]⟩
    · by_cases hs : sub.state = "TURNED_IN"
      · simp [submit_assignment, hl, hs] at hok
      · rcases hp : env.patchResult with ep | u
        · simp [submit_assignment, attachAndTurnIn, hl, hs, hp] at hok
        · rcases ht : env.turnInResult with et | v
          · simp [submit_assignment, attachAndTurnIn, hl, hs, hp, ht] at hok
          · exact ⟨sub.id, by
              simp [submit_assignment, attachAndTurnIn, hl, hs, hp, ht,
                isPatch, isTurnIn, List.filter]⟩


/-- C1: for every successful `POST /submit` request, exactly one attachment
— referencing the uploaded file's remote identifier, with the original
filename as display title — is added to the student submission via a
masked update with attachment-add semantics (`updateMask = addAttachments`,
so existing attachments are kept), and the turn-in operation is invoked on
that same submission. -/
theorem C1_submit_success (env : SubmitEnv) (cid aid fn msg : String)
    (hok : (submitHandler env cid aid fn).fst = Except.ok msg) :
    ∃ fid subId,
      env.uploadResult = Except.ok fid ∧
      (submitHandler env cid aid fn).snd.filter isPatch =
        [Effect.patchSub cid aid subId "addAttachments" [{ fileId := fid, title := fn }]] ∧
      (submitHandler env cid aid fn).snd.filter isTurnIn = [Effect.turnIn aid subId] := by
  rcases hA : authenticate env.tok env.authEnv with ⟨r, tr⟩
  have htrP : tr.filter isPatch = [] := by
    have h := (authenticate_filter_nil env.tok env.authEnv).1
    rw [hA] at h; exact h
  have htrT : tr.filter isTurnIn = [] := by
    have h := (authenticate_filter_nil env.tok env.authEnv).2.1
    rw [hA] at h; exact h
  rcases r with e0 | c0
  · simp [submitHandler, hA] at hok
  · rcases hu : env.uploadResult with eu | fid
    · simp [submitHandler, hA, hu] at hok
    · rcases hsa : (submit_assignment env.classEnv cid aid fid fn).fst with es | u
      · simp [submitHandler, hA, hu, hsa] at hok
      · obtain ⟨⟩ := u
        obtain ⟨sid, hp, ht2⟩ := submit_assignment_ok_filters env.classEnv cid aid fid fn hsa
        refine ⟨fid, sid, rfl, ?_, ?_⟩
        · simp [submitHandler, hA, hu, hsa, List.filter_append, htrP, hp, isPatch]
        · simp [submitHandler, hA, hu, hsa, List.filter_append, htrT, ht2, isTurnIn]

/-- Witness for C1 at a concrete all-success environment. -/
theorem C1_witness :
    ∃ fid subId,
      allOkEnv.uploadResult = Except.ok fid ∧
      (submitHandler allOkEnv "c1" "a1" "notes.txt").snd.filter isPatch =
        [Effect.patchSub "c1" "a1" subId "addAttachments" [{ fileId := fid, title := "notes.txt" }]] ∧
      (submitHandler allOkEnv "c1" "a1" "notes.txt").snd.filter isTurnIn =
        [Effect.turnIn "a1" subId] :=
  C1_submit_success allOkEnv "c1" "a1" "notes.txt" "Assignment a1 submitted successfully." rfl

/-- C2: a `POST /submit` request against an assignment whose existing
submission is already `TURNED_IN` fails with the explicit error raised at
`app.py:223`, and neither the attachment patch, nor the turn-in call, nor
a submission creation is invoked. -/
theorem C2_resubmit_rejected (env : SubmitEnv) (cid aid fn : String)
    (sub : Submission) (rest : List Submission) (c0 : Creds) (fid : String)
    (hauth : (authenticate env.tok env.authEnv).fst = Except.ok c0)
    (hup : env.uploadResult = Except.ok fid)
    (hl : env.classEnv.listResult = Except.ok (sub :: rest))
    (hs : sub.state = "TURNED_IN") :
    (submitHandler env cid aid fn).fst = Except.error "Assignment already turned in." ∧
    (submitHandler env cid aid fn).snd.filter isPatch = [] ∧
    (submitHandler env cid aid fn).snd.filter isTurnIn = [] ∧
    (submitHandler env cid aid fn).snd.filter isCreate = [] := by
  rcases hA : authenticate env.tok env.authEnv with ⟨r, tr⟩
  rw [hA] at hauth
  simp only at hauth
  subst hauth
  have hsa : submit_assignment env.classEnv cid aid fid fn =
      (Except.error "Assignment already turned in.", [Effect.listSubs cid aid]) := by
    simp [submit_assignment, hl, hs]
  have hfil := authenticate_filter_nil env.tok env.authEnv
  rw [hA] at hfil
  refine ⟨?_, ?_, ?_, ?_⟩ <;>
    simp [submitHandler, hA, hup, hsa, List.filter_append, hfil.1, hfil.2.1, hfil.2.2.1,
      isPatch, isTurnIn, isCreate]

/-- Witness for C2 at a concrete environment with an already-turned-in
submission. -/
theorem C2_witness :
    (submitHandler turnedInEnv "c1" "a1" "notes.txt").fst =
      Except.error "Assignment already turned in." ∧
    (submitHandler turnedInEnv "c1" "a1" "notes.txt").snd.filter isPatch = [] ∧
    (submitHandler turnedInEnv "c1" "a1" "notes.txt").snd.filter isTurnIn = [] ∧
    (submitHandler turnedInEnv "c1" "a1" "notes.txt").snd.filter isCreate = [] :=
  C2_resubmit_rejected turnedInEnv "c1" "a1" "notes.txt" turnedInSub [] freshCred "fid123"
    rfl rfl rfl rfl

/-- C3: loading the token file when it exists but is undecodable or lacks
a refresh token returns no credential and deletes the file; a missing file
returns no credential without any deletion. -/
theorem C3_load_self_healing :
    loadToken (some TokenFile.malformed) = (none, [Effect.unlinkToken]) ∧
    loadToken (some TokenFile.noRefreshKey) = (none, [Effect.unlinkToken]) ∧
    loadToken none = (none, []) :=
  ⟨rfl, rfl, rfl⟩

/-- C4 counterexample: when the Drive upload step fails, the `POST /submit`
handler returns an error after having written the scratch upload file, and
no scratch-file removal effect occurs on this exit path — refuting the
claim that the temporary file is deleted on every exit path. -/
theorem C4_counterexample :
    (submitHandler uploadFailEnv "c1" "a1" "notes.txt").fst = Except.error "upload failed" ∧
    Effect.saveUpload (uploadsPath "notes.txt") ∈
      (submitHandler uploadFailEnv "c1" "a1" "notes.txt").snd ∧
    (submitHandler uploadFailEnv "c1" "a1" "notes.txt").snd.filter isRemove = [] := by
  refine ⟨rfl, ?_, rfl⟩
  simp [submitHandler, authenticate, loadToken, uploadFailEnv, goodAuthEnv, freshCred,
    Creds.valid]

/-- C4 (amended): the scratch upload file is removed exactly once on the
success path of `POST /submit`, and is not removed on any failure path
(authentication, upload, lookup, attach or turn-in failing). -/
theorem C4_cleanup_on_success_only (env : SubmitEnv) (cid aid fn : String) :
    (∀ msg, (submitHandler env cid aid fn).fst = Except.ok msg →
      (submitHandler env cid aid fn).snd.filter isRemove =
        [Effect.removeFile (uploadsPath fn)]) ∧
    (∀ e, (submitHandler env cid aid fn).fst = Except.error e →
      (submitHandler env cid aid fn).snd.filter isRemove = []) := by
  rcases hA : authenticate env.tok env.authEnv with ⟨r, tr⟩
  have htr : tr.filter isRemove = [] := by
    have h := (authenticate_filter_nil env.tok env.authEnv).2.2.2
    rw [hA] at h; exact h
  rcases r with e0 | c0
  · constructor
    · intro msg hmsg; simp [submitHandler, hA] at hmsg
    · intro e he; simp [submitHandler, hA, htr]
  · rcases hu : env.uploadResult with eu | fid
    · constructor
      · intro msg hmsg; simp [submitHandler, hA, hu] at hmsg
      · intro e he; simp [submitHandler, hA, hu, List.filter_append, htr, isRemove]
    · have h2 := submit_assignment_no_remove env.classEnv cid aid fid fn
      rcases hsa : (submit_assignment env.classEnv cid aid fid fn).fst with es | u
      · constructor
        · intro msg hmsg; simp [submitHandler, hA, hu, hsa] at hmsg
        · intro e he
          simp [submitHandler, hA, hu, hsa, List.filter_append, htr, h2, isRemove]
      · obtain ⟨⟩ := u
        constructor
        · intro msg hmsg
          simp [submitHandler, hA, hu, hsa, List.filter_append, htr, h2, isRemove]
        · intro e he; simp [submitHandler, hA, hu, hsa] at he

/-- Witness for the amended C4 at a concrete all-success environment. -/
theorem C4_witness :
    (submitHandler allOkEnv "c1" "a1" "notes.txt").snd.filter isRemove =
      [Effect.removeFile (uploadsPath "notes.txt")] :=
  (C4_cleanup_on_success_only allOkEnv "c1" "a1" "notes.txt").1
    "Assignment a1 submitted successfully." rfl

/-- C5 counterexample: a coursework item whose `dueDate` object is present
but empty has all of year/month/day absent, yet its due string is the
`No due date` sentinel rather than the placeholder-substituted
`N/A-N/A-N/A` the claim requires for an item that has a due-date record. -/
theorem C5_counterexample :
    emptyDueWork.dueDate = some [] ∧
    assignmentItem emptyDueEnv emptyDueWork ∈ assignmentsHandler emptyDueEnv ∧
    (assignmentItem emptyDueEnv emptyDueWork).due = "No due date" ∧
    (assignmentItem emptyDueEnv emptyDueWork).due ≠ "N/A-N/A-N/A" := by
  refine ⟨rfl, ?_, rfl, by decide⟩
  simp [assignmentsHandler, emptyDueEnv]

/-- C5 (amended): for every coursework item in the response, a non-empty
due-date record is formatted by substituting the `N/A` placeholder exactly
for each absent component and the actual value for each present one, while
an absent or empty due-date record yields the `No due date` sentinel. -/
theorem C5_due_formatting (env : AsgEnv) (w : Work) (hw : w ∈ env.coursework) :
    assignmentItem env w ∈ assignmentsHandler env ∧
    (w.dueDate = none → (assignmentItem env w).due = "No due date") ∧
    (w.dueDate = some [] → (assignmentItem env w).due = "No due date") ∧
    (∀ d, w.dueDate = some d → d ≠ [] →
      (assignmentItem env w).due =
        (match dictGet d "year" with | some y => toString y | none => "N/A") ++ "-" ++
        (match dictGet d "month" with | some m => toString m | none => "N/A") ++ "-" ++
        (match dictGet d "day" with | some dy => toString dy | none => "N/A")) := by
  refine ⟨List.mem_map_of_mem _ hw, ?_, ?_, ?_⟩
  · intro h; simp [assignmentItem, formatDue, h]
  · intro h; simp [assignmentItem, formatDue, h]
  · intro d hd hne
    rcases d with _ | ⟨kv, rest⟩
    · exact absurd rfl hne
    · simp [assignmentItem, formatDue, formatComponent, hd]

/-- Witness for the amended C5: a record with year and month but no day
formats as `2024-5-N/A`. -/
theorem C5_witness :
    (assignmentItem partialDueEnv partialDueWork).due = "2024-5-N/A" := by
  have h := (C5_due_formatting partialDueEnv partialDueWork
    (by simp [partialDueEnv])).2.2.2 [("year", 2024), ("month", 5)] rfl (by simp)
  simpa [dictGet] using h

/-- C6: an expired credential carrying a refresh token makes `authenticate`
perform the refresh call and never run the interactive consent flow. -/
theorem C6_expired_refresh_not_consent (c : Creds) (env : AuthEnv)
    (hexp : c.expired = true) (href : c.hasRefreshToken = true) :
    Effect.refreshCall ∈ (authenticate (some (TokenFile.withRefresh c)) env).snd ∧
    Effect.consentFlow ∉ (authenticate (some (TokenFile.withRefresh c)) env).snd := by
  have hv : c.valid = false := by simp [Creds.valid, hexp]
  rcases hr : env.refreshResult with er | cr
  · simp [authenticate, loadToken, hv, hexp, href, hr]
  · simp [authenticate, loadToken, hv, hexp, href, hr]
    split <;> simp

/-- Witness for C6 at a concrete expired credential. -/
theorem C6_witness :
    Effect.refreshCall ∈
      (authenticate (some (TokenFile.withRefresh expiredCred))
        { refreshResult := Except.ok freshCred, consentResult := Except.error "consent" }).snd :=
  (C6_expired_refresh_not_consent expiredCred
    { refreshResult := Except.ok freshCred, consentResult := Except.error "consent" } rfl rfl).1

/-- C7: a loaded credential that is valid and unexpired is returned as-is
with no side effect at all, so the interactive consent flow is never
invoked. -/
theorem C7_valid_no_consent (c : Creds) (env : AuthEnv)
    (ht : c.hasToken = true) (hexp : c.expired = false) :
    authenticate (some (TokenFile.withRefresh c)) env = (Except.ok c, []) ∧
    Effect.consentFlow ∉ (authenticate (some (TokenFile.withRefresh c)) env).snd := by
  have hv : c.valid = true := by simp [Creds.valid, ht, hexp]
  refine ⟨?_, ?_⟩ <;> simp [authenticate, loadToken, hv]

/-- Witness for C7 at a concrete valid credential. -/
theorem C7_witness :
    authenticate (some (TokenFile.withRefresh freshCred)) refreshFailEnv =
      (Except.ok freshCred, []) :=
  (C7_valid_no_consent freshCred refreshFailEnv rfl rfl).1

/-- C8: every coursework item whose submission query returns no submissions
appears in the response with status `NOT_SUBMITTED`, and an item with at
least one submission appears with the first returned submission's state. -/
theorem C8_status_defaults (env : AsgEnv) (w : Work) (hw : w ∈ env.coursework) :
    assignmentItem env w ∈ assignmentsHandler env ∧
    (env.subsFor w.id = [] → (assignmentItem env w).status = "NOT_SUBMITTED") ∧
    (∀ s rest, env.subsFor w.id = s :: rest → (assignmentItem env w).status = s.state) := by
  refine ⟨List.mem_map_of_mem _ hw, ?_, ?_⟩
  · intro h; simp [assignmentItem, h]
  · intro s rest h; simp [assignmentItem, h]

/-- Witness for C8 at a concrete item with no submissions. -/
theorem C8_witness :
    (assignmentItem noSubEnv noSubWork).status = "NOT_SUBMITTED" :=
  (C8_status_defaults noSubEnv noSubWork (by simp [noSubEnv])).2.1 rfl

/-- C9: when the refresh or consent step of `authenticate` raises, that
error is the result of the whole call; whenever `authenticate` results in
an error no credential is saved to the store; and every credential that is
saved is valid. -/
theorem C9_hard_fail_no_persist (tok : Option TokenFile) (env : AuthEnv) :
    (∀ e, env.refreshResult = Except.error e →
      Effect.refreshCall ∈ (authenticate tok env).snd →
      (authenticate tok env).fst = Except.error e) ∧
    (∀ e, env.consentResult = Except.error e →
      Effect.consentFlow ∈ (authenticate tok env).snd →
      (authenticate tok env).fst = Except.error e) ∧
    (∀ e, (authenticate tok env).fst = Except.error e →
      ∀ c, Effect.saveToken c ∉ (authenticate tok env).snd) ∧
    (∀ c, Effect.saveToken c ∈ (authenticate tok env).snd → c.valid = true) := by
  rcases tok with _ | (_ | _ | c) <;>
    rcases hr : env.refreshResult with er | cr <;>
    rcases hc : env.consentResult with ec | cc <;>
    simp only [authenticate, loadToken, hr, hc] <;>
    repeat' split
  all_goals aesop

/-- Witness for C9: a failing refresh on an expired credential makes the
whole `authenticate` call fail with that error. -/
theorem C9_witness :
    (authenticate expiredTok refreshFailEnv).fst = Except.error "boom" :=
  (C9_hard_fail_no_persist expiredTok refreshFailEnv).1 "boom" rfl
    (by simp [authenticate, loadToken, expiredTok, refreshFailEnv, expiredCred, Creds.valid])

/-- C10: a `GET /auth` request with `credentials.json` present and a stored
token deletes the token before the consent flow runs, so a failing consent
flow leaves an error response and an emptied credential store. -/
theorem C10_auth_clears_store_before_consent (tf : TokenFile) (env : AuthRouteEnv) (e : String)
    (hc : env.credentialsExists = true) (hf : env.flowResult = Except.error e) :
    authHandler (some tf) env =
      (Except.error ("Authentication failed: " ++ e), none,
       [Effect.unlinkToken, Effect.consentFlow]) := by
  simp [authHandler, hc, hf]

/-- Witness for C10 at a concrete store and failing flow. -/
theorem C10_witness :
    authHandler (some (TokenFile.withRefresh freshCred)) flowFailEnv =
      (Except.error "Authentication failed: denied", none,
       [Effect.unlinkToken, Effect.consentFlow]) :=
  C10_auth_clears_store_before_consent (TokenFile.withRefresh freshCred) flowFailEnv "denied"
    rfl rfl

end ClassroomApp
